import Mathlib

/-!
Verification of the bookwyrm/fedireads inbox activity-processing pipeline:
signature gate, activity-type routing, and the relationship/interaction
state transitions exercised by `bookwyrm/tests/test_incoming.py`.

The module under test (`bookwyrm/incoming.py`) and the data model
(`bookwyrm/models`) are not part of the visible sources; every behavioral
definition below is therefore modelled from the specification, constrained
by the visible tests.
-/

namespace Bookwyrm

/-- Notification type enum, as used by `models.Notification.notification_type`. -/
inductive NotifType
  | FOLLOW
  | FOLLOW_REQUEST
  | FAVORITE
  deriving DecidableEq, Repr

/-- Modelled from the spec: `models.User` — a local or remote actor with a
unique remote identifier, a local flag, a local handle, and the
follower-approval policy flag `manually_approves_followers`. -/
structure Actor where
  remote_id : String
  localname : String
  is_local : Bool
  manually_approves_followers : Bool
  deriving DecidableEq, Repr

/-- Modelled from the spec: `models.Status` — a local content item with a
remote identifier and an owning actor (by remote id). -/
structure Status where
  remote_id : String
  user : String
  deriving DecidableEq, Repr

/-- Modelled from the spec: a (subject, object) follow pair, backing both
`models.UserFollowRequest` and `models.UserFollows`; actors are referenced
by remote id. -/
structure FollowRel where
  user_subject : String
  user_object : String
  deriving DecidableEq, Repr

/-- Modelled from the spec: `models.Favorite` — an interaction record keyed
by the globally unique remote activity id, linking a local status and the
acting actor. -/
structure Favorite where
  remote_id : String
  status : String
  user : String
  deriving DecidableEq, Repr

/-- Modelled from the spec: `models.Notification` — recipient (by remote id)
and notification type. -/
structure Notification where
  user : String
  notification_type : NotifType
  deriving DecidableEq, Repr

/-- The persistent state the handlers read and mutate: actor table, statuses,
follow requests, follow edges, favorites and notifications. -/
structure St where
  users : List Actor
  statuses : List Status
  user_follow_requests : List FollowRel
  user_follows : List FollowRel
  favorites : List Favorite
  notifications : List Notification
  deriving DecidableEq, Repr

/-- A nested activity object (an Undo/Accept/Reject wraps a Follow object
carrying its own id/type/actor/object). -/
structure FollowBlob where
  id : String
  type : String
  actor : String
  object : String
  deriving DecidableEq, Repr

/-- The `object` field of an activity payload: either a string id or a
nested object. -/
inductive ActObject
  | ref (id : String)
  | nested (f : FollowBlob)
  deriving DecidableEq, Repr

/-- A decoded activity payload: `type` plus optional `actor`, `object`, `id`
fields (a missing `object` is representable, as the router must reject it). -/
structure Activity where
  type : String
  actor : Option String
  object : Option ActObject
  id : Option String
  deriving DecidableEq, Repr

/-- An inbound HTTP request: method and decoded body (`none` = no JSON body). -/
structure Request where
  method : String
  body : Option Activity
  deriving DecidableEq, Repr

/-- The HTTP-level results the inbox endpoints can produce. -/
inductive Response
  | methodNotAllowed
  | badRequest
  | unauthorized
  | notFound
  | ok
  deriving DecidableEq, Repr

/-- HTTP status code of each response kind. -/
def Response.statusCode : Response → Nat
  | .methodNotAllowed => 405
  | .badRequest => 400
  | .unauthorized => 401
  | .notFound => 404
  | .ok => 200

/-- A fire-and-forget task enqueued by the router: handler name plus the
activity payload it will be applied to. -/
structure Task where
  handler : String
  activity : Activity
  deriving DecidableEq, Repr

/-- Look up an actor by remote id. -/
def find_user (st : St) (rid : String) : Option Actor :=
  st.users.find? (fun a => a.remote_id == rid)

/-- Look up a local actor by localname (per-actor inbox path resolution). -/
def find_local_user (st : St) (name : String) : Option Actor :=
  st.users.find? (fun a => a.is_local && a.localname == name)

/-- Look up a local status by remote id. -/
def find_status (st : St) (rid : String) : Option Status :=
  st.statuses.find? (fun s => s.remote_id == rid)

/-- Modelled from the spec: remote actors are lazily created/cached on first
federation contact; a no-op when the remote id is already known. -/
def cache_actor (st : St) (rid : String) : St :=
  if st.users.any (fun a => a.remote_id == rid) then st
  else { st with users := st.users ++ [⟨rid, rid, false, false⟩] }

/-- Modelled from the spec: `incoming.handle_follow` — resolve subject
(remote requester) and object (local target); if the target manually
approves followers, create a FollowRequest and a FOLLOW-REQUEST
notification, otherwise create a FollowEdge and a FOLLOW notification.
Guarded by an existence check for idempotency under re-delivery; an
unresolvable target is logged and mutates nothing. -/
def handle_follow (activity : Activity) (st : St) : St :=
  match activity.actor, activity.object with
  | some subj, some (.ref objId) =>
    match find_user st objId with
    | some target =>
      let st1 := cache_actor st subj
      if target.manually_approves_followers then
        if st1.user_follow_requests.any
            (fun r => r.user_subject == subj && r.user_object == objId) then st1
        else { st1 with
          user_follow_requests := ⟨subj, objId⟩ :: st1.user_follow_requests,
          notifications := ⟨objId, .FOLLOW_REQUEST⟩ :: st1.notifications }
      else
        if st1.user_follows.any
            (fun e => e.user_subject == subj && e.user_object == objId) then st1
        else { st1 with
          user_follows := ⟨subj, objId⟩ :: st1.user_follows,
          notifications := ⟨objId, .FOLLOW⟩ :: st1.notifications }
    | none => st
  | _, _ => st

/-- Modelled from the spec: `incoming.handle_unfollow` — unwrap the embedded
Follow object and delete the FollowEdge and/or outstanding FollowRequest for
that (subject, object) pair if present; absence is not an error. -/
def handle_unfollow (activity : Activity) (st : St) : St :=
  match activity.object with
  | some (.nested f) =>
    { st with
      user_follows := st.user_follows.filter
        (fun e => !(e.user_subject == f.actor && e.user_object == f.object)),
      user_follow_requests := st.user_follow_requests.filter
        (fun r => !(r.user_subject == f.actor && r.user_object == f.object)) }
  | _ => st

/-- Modelled from the spec: `incoming.handle_follow_accept` — unwrap the
embedded Follow object, locate the matching FollowRequest by (subject,
object) pair; if found, delete it and create the corresponding FollowEdge;
a missing request is a no-op. -/
def handle_follow_accept (activity : Activity) (st : St) : St :=
  match activity.object with
  | some (.nested f) =>
    if st.user_follow_requests.any
        (fun r => r.user_subject == f.actor && r.user_object == f.object) then
      { st with
        user_follow_requests := st.user_follow_requests.filter
          (fun r => !(r.user_subject == f.actor && r.user_object == f.object)),
        user_follows := ⟨f.actor, f.object⟩ :: st.user_follows }
    else st
  | _ => st

/-- Modelled from the spec: `incoming.handle_follow_reject` — symmetric to
accept, but deletes the FollowRequest without creating an edge. -/
def handle_follow_reject (activity : Activity) (st : St) : St :=
  match activity.object with
  | some (.nested f) =>
    if st.user_follow_requests.any
        (fun r => r.user_subject == f.actor && r.user_object == f.object) then
      { st with
        user_follow_requests := st.user_follow_requests.filter
          (fun r => !(r.user_subject == f.actor && r.user_object == f.object)) }
    else st
  | _ => st

/-- Modelled from the spec: `incoming.handle_favorite` — if a Favorite with
this remote activity id already exists, no-op; otherwise resolve the target
local status (unknown content is logged and mutates nothing), cache the
acting remote actor, create the Interaction record and emit a FAVORITE
notification to the content owner. -/
def handle_favorite (activity : Activity) (st : St) : St :=
  match activity.id, activity.actor, activity.object with
  | some fid, some actorId, some (.ref objId) =>
    if st.favorites.any (fun i => i.remote_id == fid) then st
    else
      match find_status st objId with
      | some status =>
        let st1 := cache_actor st actorId
        { st1 with
          favorites := ⟨fid, objId, actorId⟩ :: st1.favorites,
          notifications := ⟨status.user, .FAVORITE⟩ :: st1.notifications }
      | none => st
  | _, _, _ => st

/-- Modelled from the spec: Delete activities are routed (they are in the
signature-exempt allow-list and must reach a handler), but content-deletion
semantics are outside the visible scope; modelled as identity on the
visible state. -/
def handle_delete (_activity : Activity) (st : St) : St := st

/-- Modelled from the spec: the activity-type → handler routing table
(Follow, Undo wrapping Follow, Accept, Reject, Create/Like-class, Delete);
unknown types have no handler. -/
def activity_handler : String → Option String
  | "Follow" => some "handle_follow"
  | "Undo" => some "handle_unfollow"
  | "Accept" => some "handle_follow_accept"
  | "Reject" => some "handle_follow_reject"
  | "Create" => some "handle_favorite"
  | "Like" => some "handle_favorite"
  | "Delete" => some "handle_delete"
  | _ => none

/-- The signature-verification exempt allow-list (Undo, Delete). -/
def exempt_types : List String := ["Undo", "Delete"]

/-- Modelled from the spec: `incoming.shared_inbox` — reject non-POST with
method-not-allowed; reject a missing body or missing `object` field as a bad
request before signature checking; for non-exempt types an invalid signature
short-circuits with unauthorized before routing; unknown types yield
not-found; known types enqueue one fire-and-forget handler task and return
success immediately. Returns the HTTP response plus the tasks enqueued. -/
def shared_inbox (has_valid_signature : Bool) (req : Request) :
    Response × List Task :=
  if req.method ≠ "POST" then (.methodNotAllowed, [])
  else match req.body with
  | none => (.badRequest, [])
  | some activity =>
    match activity.object with
    | none => (.badRequest, [])
    | some _ =>
      if ¬ has_valid_signature ∧ activity.type ∉ exempt_types then
        (.unauthorized, [])
      else match activity_handler activity.type with
        | none => (.notFound, [])
        | some h => (.ok, [⟨h, activity⟩])

/-- Run one enqueued task: dispatch by handler name to the state-machine
handlers. -/
def run_task (st : St) (t : Task) : St :=
  match t.handler with
  | "handle_follow" => handle_follow t.activity st
  | "handle_unfollow" => handle_unfollow t.activity st
  | "handle_follow_accept" => handle_follow_accept t.activity st
  | "handle_follow_reject" => handle_follow_reject t.activity st
  | "handle_favorite" => handle_favorite t.activity st
  | "handle_delete" => handle_delete t.activity st
  | _ => st

/-- The shared inbox followed by execution of whatever tasks it enqueued:
the HTTP response (computed before any handler runs) paired with the state
after the asynchronous tasks complete. -/
def process_shared_inbox (has_valid_signature : Bool) (req : Request)
    (st : St) : Response × St :=
  let r := shared_inbox has_valid_signature req
  (r.1, r.2.foldl run_task st)

/-- Modelled from the spec: `incoming.inbox` — the per-actor inbox endpoint:
reject non-POST with method-not-allowed first, then resolve the target local
actor (else not-found), then behave as the shared inbox. -/
def inbox (has_valid_signature : Bool) (req : Request) (username : String)
    (st : St) : Response × St :=
  if req.method ≠ "POST" then (.methodNotAllowed, st)
  else if (find_local_user st username).isNone then (.notFound, st)
  else process_shared_inbox has_valid_signature req st

/-- The remote ids of the actors currently following `objId`. -/
def followers (st : St) (objId : String) : List String :=
  (st.user_follows.filter (fun e => e.user_object == objId)).map
    (fun e => e.user_subject)

/- Concrete fixtures mirroring the test setup. -/

/-- The local user `mouse` (default approval policy). -/
def mouse : Actor :=
  ⟨"http://local.com/user/mouse", "mouse", true, false⟩

/-- The local user `mouse` with `manually_approves_followers` set. -/
def mouse_approves : Actor :=
  ⟨"http://local.com/user/mouse", "mouse", true, true⟩

/-- The remote user `rat`. -/
def rat : Actor :=
  ⟨"https://example.com/users/rat", "rat", false, false⟩

/-- The local test status owned by mouse. -/
def test_status : Status :=
  ⟨"http://local.com/status/1", "http://local.com/user/mouse"⟩

/-- Base state: both users and one status, no relationships. -/
def base_st : St := ⟨[mouse, rat], [test_status], [], [], [], []⟩

/-- Base state with mouse requiring manual approval. -/
def approves_st : St := ⟨[mouse_approves, rat], [test_status], [], [], [], []⟩

/-- The test's Follow activity from rat targeting mouse. -/
def follow_act : Activity :=
  ⟨"Follow", some "https://example.com/users/rat",
   some (.ref "http://local.com/user/mouse"),
   some "https://example.com/users/rat/follows/123"⟩

/-- The test's Accept activity wrapping mouse's Follow of rat. -/
def accept_act : Activity :=
  ⟨"Accept", some "https://example.com/users/rat",
   some (.nested ⟨"https://example.com/users/rat/follows/123", "Follow",
     "http://local.com/user/mouse", "https://example.com/users/rat"⟩),
   some "https://example.com/users/rat/follows/123#accepts"⟩

/-- The test's Undo activity wrapping rat's Follow of mouse. -/
def undo_act : Activity :=
  ⟨"Undo", none,
   some (.nested ⟨"https://example.com/users/rat/follows/123", "Follow",
     "https://example.com/users/rat", "http://local.com/user/mouse"⟩),
   none⟩

/-- The test's Favorite activity: rat favs mouse's status. -/
def fav_act : Activity :=
  ⟨"Create", some "https://example.com/users/rat",
   some (.ref "http://local.com/status/1"),
   some "http://example.com/fav/1"⟩

/-- Base state plus one pending FollowRequest (mouse → rat). -/
def pending_st : St :=
  ⟨[mouse, rat], [test_status],
   [⟨"http://local.com/user/mouse", "https://example.com/users/rat"⟩],
   [], [], []⟩

/-- Base state plus one FollowEdge (rat follows mouse). -/
def followed_st : St :=
  ⟨[mouse, rat], [test_status], [],
   [⟨"https://example.com/users/rat", "http://local.com/user/mouse"⟩],
   [], []⟩

/-- Lazily caching a remote actor leaves the follow-request table alone. -/
theorem cache_actor_requests (st : St) (rid : String) :
    (cache_actor st rid).user_follow_requests = st.user_follow_requests := by
  simp only [cache_actor]; split <;> rfl

/-- Lazily caching a remote actor leaves the follow-edge table alone. -/
theorem cache_actor_follows (st : St) (rid : String) :
    (cache_actor st rid).user_follows = st.user_follows := by
  simp only [cache_actor]; split <;> rfl

/-- Lazily caching a remote actor leaves the notifications alone. -/
theorem cache_actor_notifications (st : St) (rid : String) :
    (cache_actor st rid).notifications = st.notifications := by
  simp only [cache_actor]; split <;> rfl

/-- Lazily caching a remote actor leaves the favorites alone. -/
theorem cache_actor_favorites (st : St) (rid : String) :
    (cache_actor st rid).favorites = st.favorites := by
  simp only [cache_actor]; split <;> rfl

/-- Filtering for `p` after keeping only the elements violating `p` leaves
nothing. -/
theorem filter_after_filter_not {α : Type} (p : α → Bool) (l : List α) :
    (l.filter (fun a => !(p a))).filter p = [] := by
  induction l with
  | nil => rfl
  | cons a l ih =>
    by_cases h : p a <;> simp [List.filter_cons, h, ih]

/-- No element surviving the negated filter satisfies `p`. -/
theorem any_after_filter_not {α : Type} (p : α → Bool) (l : List α) :
    (l.filter (fun a => !(p a))).any p = false := by
  induction l with
  | nil => rfl
  | cons a l ih =>
    by_cases h : p a <;> simp [List.filter_cons, h, ih]

/-- C1 — For every inbound activity whose declared type is not in the exempt
set (Undo, Delete), if signature verification fails the inbox returns an
unauthorized (401) result before any routing occurs, and no state mutation
takes place. -/
theorem inbox_bad_signature_unauthorized (act : Activity) (o : ActObject)
    (st : St) (hobj : act.object = some o) (hex : act.type ∉ exempt_types) :
    (process_shared_inbox false ⟨"POST", some act⟩ st).1 =
        Response.unauthorized ∧
    (process_shared_inbox false ⟨"POST", some act⟩ st).1.statusCode = 401 ∧
    (process_shared_inbox false ⟨"POST", some act⟩ st).2 = st := by
  simp [process_shared_inbox, shared_inbox, hobj, hex, Response.statusCode]

/-- C1 witness: the test's `{"type": "Test", "object": "exists"}` payload
with an invalid signature is rejected with 401 and leaves the base state
untouched. -/
theorem inbox_bad_signature_unauthorized_witness :
    (process_shared_inbox false
        ⟨"POST", some ⟨"Test", none, some (.ref "exists"), none⟩⟩
        base_st).1 = Response.unauthorized ∧
    (process_shared_inbox false
        ⟨"POST", some ⟨"Test", none, some (.ref "exists"), none⟩⟩
        base_st).1.statusCode = 401 ∧
    (process_shared_inbox false
        ⟨"POST", some ⟨"Test", none, some (.ref "exists"), none⟩⟩
        base_st).2 = base_st :=
  inbox_bad_signature_unauthorized
    ⟨"Test", none, some (.ref "exists"), none⟩ (.ref "exists") base_st
    rfl (by decide)

/-- C2 — For every inbound activity whose declared type is Undo or Delete,
an invalid signature does not block processing: the inbox proceeds and
returns success (200) even when signature verification fails. -/
theorem inbox_exempt_bad_signature_ok (act : Activity) (o : ActObject)
    (hobj : act.object = some o) (hex : act.type ∈ exempt_types) :
    (shared_inbox false ⟨"POST", some act⟩).1 = Response.ok ∧
    (shared_inbox false ⟨"POST", some act⟩).1.statusCode = 200 := by
  have h2 : act.type = "Undo" ∨ act.type = "Delete" := by
    simpa [exempt_types] using hex
  rcases h2 with h | h <;>
    simp [shared_inbox, hobj, h, exempt_types, activity_handler,
      Response.statusCode]

/-- C2 witness: the test's `{"type": "Delete", "object": "exists"}` payload
with an invalid signature still gets a 200. -/
theorem inbox_exempt_bad_signature_ok_witness :
    (shared_inbox false
        ⟨"POST", some ⟨"Delete", none, some (.ref "exists"), none⟩⟩).1 =
      Response.ok ∧
    (shared_inbox false
        ⟨"POST", some ⟨"Delete", none, some (.ref "exists"), none⟩⟩).1.statusCode
      = 200 :=
  inbox_exempt_bad_signature_ok
    ⟨"Delete", none, some (.ref "exists"), none⟩ (.ref "exists")
    rfl (by decide)

/-- C8 — For every POST request whose body lacks an `object` field, the
inbox rejects it as a bad request before signature checking or routing,
regardless of signature validity, and mutates no state. -/
theorem inbox_missing_object_bad_request (has_valid_signature : Bool)
    (act : Activity) (st : St) (hobj : act.object = none) :
    (process_shared_inbox has_valid_signature ⟨"POST", some act⟩ st).1 =
        Response.badRequest ∧
    (process_shared_inbox has_valid_signature ⟨"POST", some act⟩ st).2 = st := by
  simp [process_shared_inbox, shared_inbox, hobj]

/-- C8 witness: a POST with an empty body object is a bad request under both
signature outcomes, leaving the base state untouched. -/
theorem inbox_missing_object_bad_request_witness :
    ((process_shared_inbox false ⟨"POST", some ⟨"Follow", none, none, none⟩⟩
        base_st).1 = Response.badRequest ∧
     (process_shared_inbox false ⟨"POST", some ⟨"Follow", none, none, none⟩⟩
        base_st).2 = base_st) ∧
    ((process_shared_inbox true ⟨"POST", some ⟨"Follow", none, none, none⟩⟩
        base_st).1 = Response.badRequest ∧
     (process_shared_inbox true ⟨"POST", some ⟨"Follow", none, none, none⟩⟩
        base_st).2 = base_st) :=
  ⟨inbox_missing_object_bad_request false ⟨"Follow", none, none, none⟩
      base_st rfl,
   inbox_missing_object_bad_request true ⟨"Follow", none, none, none⟩
      base_st rfl⟩

/-- C9 — With a valid signature: an unknown activity type yields not-found
with no tasks enqueued and no state change; a known type returns success
(200) with exactly the one handler task enqueued, the response being
computed before any handler runs. -/
theorem inbox_routing (act : Activity) (o : ActObject) (st : St)
    (hobj : act.object = some o) :
    (activity_handler act.type = none →
      (process_shared_inbox true ⟨"POST", some act⟩ st).1 =
          Response.notFound ∧
      (process_shared_inbox true ⟨"POST", some act⟩ st).2 = st) ∧
    (∀ h, activity_handler act.type = some h →
      (shared_inbox true ⟨"POST", some act⟩).1 = Response.ok ∧
      (shared_inbox true ⟨"POST", some act⟩).1.statusCode = 200 ∧
      (shared_inbox true ⟨"POST", some act⟩).2 = [⟨h, act⟩]) := by
  constructor
  · intro hnone
    simp [process_shared_inbox, shared_inbox, hobj, hnone]
  · intro h hsome
    simp [shared_inbox, hobj, hsome, Response.statusCode]

/-- C9 witness: the test's unknown `Fish` type gets not-found with no state
change, and the known `Accept` type gets a 200 with one enqueued
`handle_follow_accept` task. -/
theorem inbox_routing_witness :
    ((process_shared_inbox true
        ⟨"POST", some ⟨"Fish", none, some (.ref "exists"), none⟩⟩ base_st).1 =
      Response.notFound ∧
     (process_shared_inbox true
        ⟨"POST", some ⟨"Fish", none, some (.ref "exists"), none⟩⟩ base_st).2 =
      base_st) ∧
    ((shared_inbox true
        ⟨"POST", some ⟨"Accept", none, some (.ref "exists"), none⟩⟩).1 =
      Response.ok ∧
     (shared_inbox true
        ⟨"POST", some ⟨"Accept", none, some (.ref "exists"), none⟩⟩).2 =
      [⟨"handle_follow_accept", ⟨"Accept", none, some (.ref "exists"), none⟩⟩]) :=
  ⟨(inbox_routing ⟨"Fish", none, some (.ref "exists"), none⟩ (.ref "exists")
      base_st rfl).1 rfl,
   ⟨((inbox_routing ⟨"Accept", none, some (.ref "exists"), none⟩
        (.ref "exists") base_st rfl).2 "handle_follow_accept" rfl).1,
    ((inbox_routing ⟨"Accept", none, some (.ref "exists"), none⟩
        (.ref "exists") base_st rfl).2 "handle_follow_accept" rfl).2.2⟩⟩

/-- C10 — For every non-POST request to either inbox endpoint, the
method-not-allowed rejection precedes actor resolution: a GET (or any
non-POST) to the per-actor inbox with an arbitrary, even nonexistent,
username yields method-not-allowed rather than not-found, while a POST for
a nonexistent user yields not-found. -/
theorem inbox_method_check_first (m : String) (hm : m ≠ "POST")
    (has_valid_signature : Bool) (body body2 : Option Activity)
    (username : String) (st : St)
    (huser : find_local_user st username = none) :
    (inbox has_valid_signature ⟨m, body⟩ username st).1 =
        Response.methodNotAllowed ∧
    (shared_inbox has_valid_signature ⟨m, body⟩).1 =
        Response.methodNotAllowed ∧
    (inbox has_valid_signature ⟨"POST", body2⟩ username st).1 =
        Response.notFound := by
  refine ⟨?_, ?_, ?_⟩
  · simp [inbox, hm]
  · simp [shared_inbox, hm]
  · simp [inbox, huser]

/-- C10 witness: a GET for the nonexistent username `anything` is
method-not-allowed on both endpoints, and a POST for the nonexistent
`fish@tomato.com` is not-found. -/
theorem inbox_method_check_first_witness :
    (inbox true ⟨"GET", none⟩ "anything" base_st).1 =
        Response.methodNotAllowed ∧
    (shared_inbox true ⟨"GET", none⟩).1 = Response.methodNotAllowed ∧
    (inbox true ⟨"POST", none⟩ "anything" base_st).1 = Response.notFound :=
  inbox_method_check_first "GET" (by decide) true none none "anything"
    base_st (by decide)

/-- C3 — A Follow activity whose object actor has
`manually_approves_followers` set produces, from a clean relationship state,
exactly one FollowRequest (subject = the remote requester, object = the
target), exactly one FOLLOW-REQUEST notification addressed to the target
actor, and zero FollowEdges. -/
theorem handle_follow_manual (st : St) (act : Activity) (subj objId : String)
    (target : Actor)
    (hact : act.actor = some subj) (hobj : act.object = some (.ref objId))
    (hfind : find_user st objId = some target)
    (happr : target.manually_approves_followers = true)
    (hreq : st.user_follow_requests = []) (hedg : st.user_follows = [])
    (hnot : st.notifications = []) :
    (handle_follow act st).user_follow_requests = [⟨subj, objId⟩] ∧
    (handle_follow act st).notifications = [⟨objId, .FOLLOW_REQUEST⟩] ∧
    (handle_follow act st).user_follows = [] := by
  simp [handle_follow, hact, hobj, hfind, happr, cache_actor_requests,
    cache_actor_follows, cache_actor_notifications, hreq, hedg, hnot]

/-- C3 witness: rat's Follow of mouse, with mouse requiring approval, leaves
one FollowRequest, one FOLLOW-REQUEST notification to mouse, and no edge. -/
theorem handle_follow_manual_witness :
    (handle_follow follow_act approves_st).user_follow_requests =
      [⟨"https://example.com/users/rat", "http://local.com/user/mouse"⟩] ∧
    (handle_follow follow_act approves_st).notifications =
      [⟨"http://local.com/user/mouse", .FOLLOW_REQUEST⟩] ∧
    (handle_follow follow_act approves_st).user_follows = [] :=
  handle_follow_manual approves_st follow_act
    "https://example.com/users/rat" "http://local.com/user/mouse"
    mouse_approves rfl rfl (by decide) rfl rfl rfl rfl

/-- C4 — A Follow activity whose object actor does not require manual
approval produces, from a clean relationship state, exactly one FollowEdge
(subject = the remote requester, object = the target), exactly one FOLLOW
notification addressed to the target actor, and zero outstanding
FollowRequests. -/
theorem handle_follow_auto (st : St) (act : Activity) (subj objId : String)
    (target : Actor)
    (hact : act.actor = some subj) (hobj : act.object = some (.ref objId))
    (hfind : find_user st objId = some target)
    (happr : target.manually_approves_followers = false)
    (hreq : st.user_follow_requests = []) (hedg : st.user_follows = [])
    (hnot : st.notifications = []) :
    (handle_follow act st).user_follows = [⟨subj, objId⟩] ∧
    (handle_follow act st).notifications = [⟨objId, .FOLLOW⟩] ∧
    (handle_follow act st).user_follow_requests = [] := by
  simp [handle_follow, hact, hobj, hfind, happr, cache_actor_requests,
    cache_actor_follows, cache_actor_notifications, hreq, hedg, hnot]

/-- C4 witness: rat's Follow of mouse, with mouse not requiring approval,
leaves one FollowEdge, one FOLLOW notification to mouse, and no request. -/
theorem handle_follow_auto_witness :
    (handle_follow follow_act base_st).user_follows =
      [⟨"https://example.com/users/rat", "http://local.com/user/mouse"⟩] ∧
    (handle_follow follow_act base_st).notifications =
      [⟨"http://local.com/user/mouse", .FOLLOW⟩] ∧
    (handle_follow follow_act base_st).user_follow_requests = [] :=
  handle_follow_auto base_st follow_act
    "https://example.com/users/rat" "http://local.com/user/mouse"
    mouse rfl rfl (by decide) rfl rfl rfl rfl

/-- C5 — On a state containing a pending FollowRequest matching the
(subject, object) pair of the embedded Follow object, handle_follow_accept
deletes that request and creates exactly one FollowEdge for the pair;
invoking it again on the result (request already gone) changes nothing. -/
theorem handle_follow_accept_ok (st : St) (act : Activity) (f : FollowBlob)
    (hobj : act.object = some (.nested f))
    (hreq : (⟨f.actor, f.object⟩ : FollowRel) ∈ st.user_follow_requests)
    (hedg : st.user_follows.filter
      (fun e => e.user_subject == f.actor && e.user_object == f.object) = []) :
    (handle_follow_accept act st).user_follow_requests.filter
        (fun r => r.user_subject == f.actor && r.user_object == f.object)
      = [] ∧
    (handle_follow_accept act st).user_follows.filter
        (fun e => e.user_subject == f.actor && e.user_object == f.object)
      = [(⟨f.actor, f.object⟩ : FollowRel)] ∧
    handle_follow_accept act (handle_follow_accept act st) =
      handle_follow_accept act st := by
  have hany : st.user_follow_requests.any
      (fun r => r.user_subject == f.actor && r.user_object == f.object)
      = true :=
    List.any_eq_true.mpr ⟨⟨f.actor, f.object⟩, hreq, by simp⟩
  have hres : handle_follow_accept act st =
      { st with
        user_follow_requests := st.user_follow_requests.filter
          (fun r => !(r.user_subject == f.actor && r.user_object == f.object)),
        user_follows := ⟨f.actor, f.object⟩ :: st.user_follows } := by
    simp [handle_follow_accept, hobj, hany]
  refine ⟨?_, ?_, ?_⟩
  · rw [hres]
    exact filter_after_filter_not _ _
  · rw [hres]
    simp [List.filter_cons, hedg]
  · rw [hres]
    simp [handle_follow_accept, hobj, any_after_filter_not]
    intro x _ h1 h2
    tauto

/-- C5 witness: rat's Accept of mouse's pending follow request deletes the
request, makes mouse a follower of rat exactly once, and a second Accept is
a no-op. -/
theorem handle_follow_accept_ok_witness :
    (handle_follow_accept accept_act pending_st).user_follow_requests.filter
        (fun r => r.user_subject == "http://local.com/user/mouse" &&
          r.user_object == "https://example.com/users/rat") = [] ∧
    (handle_follow_accept accept_act pending_st).user_follows.filter
        (fun e => e.user_subject == "http://local.com/user/mouse" &&
          e.user_object == "https://example.com/users/rat")
      = [(⟨"http://local.com/user/mouse",
          "https://example.com/users/rat"⟩ : FollowRel)] ∧
    handle_follow_accept accept_act (handle_follow_accept accept_act
      pending_st) = handle_follow_accept accept_act pending_st :=
  handle_follow_accept_ok pending_st accept_act
    ⟨"https://example.com/users/rat/follows/123", "Follow",
      "http://local.com/user/mouse", "https://example.com/users/rat"⟩
    rfl (by decide) rfl

/-- C6 — handle_favorite with a remote id not previously recorded creates
exactly one Interaction record carrying that remote id and linking the
resolved local content item and the acting actor; re-applying the identical
payload afterward changes nothing (two deliveries equal one). -/
theorem handle_favorite_ok (st : St) (act : Activity)
    (fid actorId objId : String) (status : Status)
    (hid : act.id = some fid) (hact : act.actor = some actorId)
    (hobj : act.object = some (.ref objId))
    (hfresh : st.favorites.any (fun i => i.remote_id == fid) = false)
    (hstat : find_status st objId = some status) :
    (handle_favorite act st).favorites.filter
        (fun i => i.remote_id == fid) = [(⟨fid, objId, actorId⟩ : Favorite)] ∧
    handle_favorite act (handle_favorite act st) = handle_favorite act st := by
  have hnil : st.favorites.filter (fun i => i.remote_id == fid) = [] := by
    rw [List.filter_eq_nil_iff]
    intro i hi
    have := List.any_eq_false.mp hfresh i hi
    simpa using this
  have hres : handle_favorite act st =
      { cache_actor st actorId with
        favorites := ⟨fid, objId, actorId⟩ :: (cache_actor st actorId).favorites,
        notifications :=
          ⟨status.user, .FAVORITE⟩ :: (cache_actor st actorId).notifications } := by
    simp [handle_favorite, hid, hact, hobj, hfresh, hstat]
  refine ⟨?_, ?_⟩
  · rw [hres]
    simp [List.filter_cons, cache_actor_favorites, hnil]
  · rw [hres]
    simp [handle_favorite, hid, hact, hobj, cache_actor_favorites]

/-- C6 witness: rat's fav of mouse's status creates exactly one Favorite
with the test's remote id, status and actor, and redelivery is a no-op. -/
theorem handle_favorite_ok_witness :
    (handle_favorite fav_act base_st).favorites.filter
        (fun i => i.remote_id == "http://example.com/fav/1")
      = [(⟨"http://example.com/fav/1", "http://local.com/status/1",
          "https://example.com/users/rat"⟩ : Favorite)] ∧
    handle_favorite fav_act (handle_favorite fav_act base_st) =
      handle_favorite fav_act base_st :=
  handle_favorite_ok base_st fav_act "http://example.com/fav/1"
    "https://example.com/users/rat" "http://local.com/status/1"
    test_status rfl rfl rfl rfl (by decide)

/-- C7 — On a state containing a FollowEdge for the (subject, object) pair
named in the embedded Follow object, handle_unfollow removes it so that the
subject no longer appears among the object's followers; on a state with no
matching edge or request, handle_unfollow is the identity (absence is not
an error). -/
theorem handle_unfollow_ok (act : Activity) (f : FollowBlob)
    (hobj : act.object = some (.nested f)) (st st2 : St)
    (_hmem : (⟨f.actor, f.object⟩ : FollowRel) ∈ st.user_follows)
    (hE : ∀ e ∈ st2.user_follows,
      ¬(e.user_subject = f.actor ∧ e.user_object = f.object))
    (hR : ∀ r ∈ st2.user_follow_requests,
      ¬(r.user_subject = f.actor ∧ r.user_object = f.object)) :
    f.actor ∉ followers (handle_unfollow act st) f.object ∧
    handle_unfollow act st2 = st2 := by
  constructor
  · intro hin
    simp only [handle_unfollow, hobj, followers, List.mem_map,
      List.mem_filter] at hin
    obtain ⟨e, ⟨⟨he, hnp⟩, hob⟩, hsub⟩ := hin
    simp only [beq_iff_eq] at hob
    simp [hsub, hob] at hnp
  · have h1 : st2.user_follows.filter
        (fun e => !(e.user_subject == f.actor && e.user_object == f.object))
        = st2.user_follows := by
      rw [List.filter_eq_self]
      intro e he
      have := hE e he
      simp only [Bool.not_eq_true', Bool.and_eq_false_iff, beq_eq_false_iff_ne]
      tauto
    have h2 : st2.user_follow_requests.filter
        (fun r => !(r.user_subject == f.actor && r.user_object == f.object))
        = st2.user_follow_requests := by
      rw [List.filter_eq_self]
      intro r hr
      have := hR r hr
      simp only [Bool.not_eq_true', Bool.and_eq_false_iff, beq_eq_false_iff_ne]
      tauto
    simp only [handle_unfollow, hobj, h1, h2]

/-- C7 witness: undoing rat's follow of mouse removes rat from mouse's
followers, and undoing against the clean base state changes nothing. -/
theorem handle_unfollow_ok_witness :
    "https://example.com/users/rat" ∉
      followers (handle_unfollow undo_act followed_st)
        "http://local.com/user/mouse" ∧
    handle_unfollow undo_act base_st = base_st :=
  handle_unfollow_ok undo_act
    ⟨"https://example.com/users/rat/follows/123", "Follow",
      "https://example.com/users/rat", "http://local.com/user/mouse"⟩
    rfl followed_st base_st (by decide) (by simp [base_st])
    (by simp [base_st])

end Bookwyrm
